import Mathlib

/-!
Verification of the Solar2D MCP server's process-lifecycle and file-based
control-channel core, as a shallow embedding of the Python sources
(src/tools/run_project.py, src/tools/screenshot.py, src/tools/touch.py,
src/tools/social/preview.py, src/tools/social/publish.py, src/utils.py)
and of the generated Lua companion scripts embedded in run_project.py.

Python strings are modelled as `List Char`; machine integers and floats
that only flow through exact arithmetic are modelled as `Int`/`Rat`; the
filesystem pieces each handler touches are modelled as explicit state.
-/

/- ## Python-string primitives over `List Char` -/

/-- `beginsWith p s` is Python `s.startswith(p)` on character lists. -/
def beginsWith : List Char → List Char → Bool
  | [], _ => true
  | _ :: _, [] => false
  | p :: ps, c :: cs => p == c && beginsWith ps cs

/-- `containsSub pat s` is Python `pat in s` (substring containment). -/
def containsSub (pat : List Char) : List Char → Bool
  | [] => beginsWith pat []
  | c :: rest => beginsWith pat (c :: rest) || containsSub pat rest

/-- The whitespace set of Python `str.strip()`. -/
def isPySpace (c : Char) : Bool :=
  c == ' ' || c == '\t' || c == '\n' || c == '\r' || c == '\x0b' || c == '\x0c'

/-- Python `s.strip()`. -/
def pyStrip (l : List Char) : List Char :=
  ((l.dropWhile isPySpace).reverse.dropWhile isPySpace).reverse

/-- Python `s.lower()` (ASCII case folding, which is all the sources use). -/
def pyLower (l : List Char) : List Char := l.map Char.toLower

/-- Python `s.split('\n')`. -/
def pySplitLines : List Char → List (List Char)
  | [] => [[]]
  | c :: rest =>
    if c = '\n' then [] :: pySplitLines rest
    else
      match pySplitLines rest with
      | [] => [[c]]
      | l :: ls => (c :: l) :: ls

/-- Python `'\n'.join(lines)`. -/
def pyJoinLines : List (List Char) → List Char
  | [] => []
  | [l] => l
  | l :: l' :: ls => l ++ '\n' :: pyJoinLines (l' :: ls)

/-- Python `lines.insert(i, a)` (clamping semantics of list.insert). -/
def pyInsertAt (l : List α) (i : Nat) (a : α) : List α :=
  l.take i ++ a :: l.drop i

/- ## ControlChannel (write / read-and-consume over the filesystem)

`write_control` models the producer side used throughout the Python tools,
e.g. screenshot.py `handle_start_recording` lines 123-125:
`with open(control_file, 'w') as f: f.write(str(duration))` - an `open`
in mode `'w'` truncates, so a write replaces the whole file contents.
`read_and_consume` models the consumer side generated into the Lua
companions by run_project.py `create_screenshot_module` lines 113-123
(`readControlFile`: read `*all`, close, `os.remove`). -/

/-- A filesystem restricted to small text files: path to optional contents. -/
def FileSys : Type := String → Option String

/-- Overwrite-on-write: `open(path, 'w'); write(payload)`. -/
def write_control (fs : FileSys) (path payload : String) : FileSys :=
  fun q => if q = path then some payload else fs q

/-- Read-then-delete consumption: the Lua `readControlFile` helper. -/
def read_and_consume (fs : FileSys) (path : String) : Option String × FileSys :=
  match fs path with
  | some c => (some c, fun q => if q = path then none else fs q)
  | none => (none, fs)

/- ## Lemmas about the string primitives -/

theorem beginsWith_append (p rest : List Char) : beginsWith p (p ++ rest) = true := by
  induction p with
  | nil => rfl
  | cons c cs ih => simp [beginsWith, ih]

theorem eq_append_of_beginsWith {p s : List Char} (h : beginsWith p s = true) :
    ∃ rest, s = p ++ rest := by
  induction p generalizing s with
  | nil => exact ⟨s, rfl⟩
  | cons c cs ih =>
    cases s with
    | nil => simp [beginsWith] at h
    | cons d ds =>
      simp only [beginsWith, Bool.and_eq_true, beq_iff_eq] at h
      obtain ⟨rfl, h2⟩ := h
      obtain ⟨rest, rfl⟩ := ih h2
      exact ⟨rest, rfl⟩

theorem containsSub_of_beginsWith {pat s : List Char} (h : beginsWith pat s = true) :
    containsSub pat s = true := by
  cases s with
  | nil => exact h
  | cons c cs =>
    show (beginsWith pat (c :: cs) || containsSub pat cs) = true
    rw [h]; rfl

theorem containsSub_append_middle (pat pre post : List Char) :
    containsSub pat (pre ++ pat ++ post) = true := by
  induction pre with
  | nil =>
    simp only [List.nil_append]
    exact containsSub_of_beginsWith (beginsWith_append pat post)
  | cons c cs ih =>
    have he : (c :: cs) ++ pat ++ post = c :: (cs ++ pat ++ post) := by simp
    rw [he]
    show (beginsWith pat (c :: (cs ++ pat ++ post)) || containsSub pat (cs ++ pat ++ post)) = true
    rw [ih]
    simp

theorem exists_of_containsSub {pat s : List Char} (h : containsSub pat s = true) :
    ∃ pre post, s = pre ++ pat ++ post := by
  induction s with
  | nil =>
    simp only [containsSub] at h
    obtain ⟨rest, hr⟩ := eq_append_of_beginsWith h
    exact ⟨[], rest, by simpa using hr⟩
  | cons c cs ih =>
    simp only [containsSub, Bool.or_eq_true] at h
    rcases h with h | h
    · obtain ⟨rest, hr⟩ := eq_append_of_beginsWith h
      exact ⟨[], rest, by simpa using hr⟩
    · obtain ⟨pre, post, hp⟩ := ih h
      exact ⟨c :: pre, post, by simp [hp]⟩

theorem containsSub_of_append {pat s : List Char} (pre post : List Char)
    (h : s = pre ++ pat ++ post) : containsSub pat s = true := by
  rw [h]; exact containsSub_append_middle pat pre post

theorem pySplitLines_cons_eq (c : Char) (rest : List Char) :
    pySplitLines (c :: rest) =
      if c = '\n' then [] :: pySplitLines rest
      else
        match pySplitLines rest with
        | [] => [[c]]
        | l :: ls => (c :: l) :: ls := rfl

theorem pySplitLines_ne_nil (s : List Char) : pySplitLines s ≠ [] := by
  cases s with
  | nil => simp [pySplitLines]
  | cons c rest =>
    rw [pySplitLines_cons_eq]
    by_cases h : c = '\n'
    · rw [if_pos h]; simp
    · rw [if_neg h]
      cases hs : pySplitLines rest <;> simp

theorem pySplitLines_cons_of_ne {c : Char} (rest : List Char) (h : ¬ c = '\n')
    {l0 : List Char} {ls : List (List Char)} (hs : pySplitLines rest = l0 :: ls) :
    pySplitLines (c :: rest) = (c :: l0) :: ls := by
  rw [pySplitLines_cons_eq, if_neg h, hs]

theorem pyJoin_pySplit (s : List Char) : pyJoinLines (pySplitLines s) = s := by
  induction s with
  | nil => rfl
  | cons c rest ih =>
    by_cases h : c = '\n'
    · rw [pySplitLines_cons_eq, if_pos h]
      cases hs : pySplitLines rest with
      | nil => exact absurd hs (pySplitLines_ne_nil rest)
      | cons l ls =>
        rw [hs] at ih
        show [] ++ '\n' :: pyJoinLines (l :: ls) = c :: rest
        rw [ih, h]; rfl
    · cases hs : pySplitLines rest with
      | nil => exact absurd hs (pySplitLines_ne_nil rest)
      | cons l ls =>
        rw [hs] at ih
        rw [pySplitLines_cons_of_ne rest h hs]
        cases ls with
        | nil =>
          show c :: l = c :: rest
          have hil : l = rest := ih
          rw [hil]
        | cons l2 ls2 =>
          show (c :: l) ++ '\n' :: pyJoinLines (l2 :: ls2) = c :: rest
          have hil : l ++ '\n' :: pyJoinLines (l2 :: ls2) = rest := ih
          rw [List.cons_append, hil]

theorem newline_not_mem_pySplitLines {s l : List Char} (hl : l ∈ pySplitLines s) :
    '\n' ∉ l := by
  induction s generalizing l with
  | nil =>
    simp only [pySplitLines, List.mem_singleton] at hl
    subst hl; simp
  | cons c rest ih =>
    by_cases h : c = '\n'
    · rw [pySplitLines_cons_eq, if_pos h] at hl
      rcases List.mem_cons.mp hl with rfl | hl
      · simp
      · exact ih hl
    · cases hs : pySplitLines rest with
      | nil => exact absurd hs (pySplitLines_ne_nil rest)
      | cons l0 ls =>
        rw [pySplitLines_cons_of_ne rest h hs] at hl
        rcases List.mem_cons.mp hl with rfl | hl
        · intro hmem
          rcases List.mem_cons.mp hmem with h1 | h1
          · exact h h1.symm
          · exact ih (hs ▸ List.mem_cons_self l0 ls) h1
        · exact ih (hs ▸ List.mem_cons_of_mem l0 hl)

theorem pyJoin_mem_infix {L : List (List Char)} {l : List Char} (h : l ∈ L) :
    ∃ pre post, pyJoinLines L = pre ++ l ++ post := by
  induction L with
  | nil => simp at h
  | cons l0 ls ih =>
    cases ls with
    | nil =>
      simp only [List.mem_singleton] at h
      subst h
      exact ⟨[], [], by simp [pyJoinLines]⟩
    | cons l1 ls1 =>
      rcases List.mem_cons.mp h with rfl | h1
      · exact ⟨[], '\n' :: pyJoinLines (l1 :: ls1), by simp [pyJoinLines]⟩
      · obtain ⟨pre, post, hp⟩ := ih h1
        refine ⟨l0 ++ '\n' :: pre, post, ?_⟩
        simp [pyJoinLines, hp]

theorem containsSub_of_mem_split {s l pat : List Char} (hl : l ∈ pySplitLines s)
    (hc : containsSub pat l = true) : containsSub pat s = true := by
  obtain ⟨pre, post, hp⟩ := pyJoin_mem_infix hl
  obtain ⟨a, b, ha⟩ := exists_of_containsSub hc
  have : s = (pre ++ a) ++ pat ++ (b ++ post) := by
    rw [← pyJoin_pySplit s, hp, ha]; simp
  exact containsSub_of_append _ _ this

theorem pySplitLines_no_nl {l : List Char} (h : '\n' ∉ l) : pySplitLines l = [l] := by
  induction l with
  | nil => rfl
  | cons c cs ih =>
    have hc : ¬ c = '\n' := fun hh => h (hh ▸ List.mem_cons_self _ _)
    have hcs : '\n' ∉ cs := fun hh => h (List.mem_cons_of_mem _ hh)
    exact pySplitLines_cons_of_ne cs hc (ih hcs)

theorem pySplitLines_append_newline {l : List Char} (t : List Char) (h : '\n' ∉ l) :
    pySplitLines (l ++ '\n' :: t) = l :: pySplitLines t := by
  induction l with
  | nil =>
    rw [List.nil_append, pySplitLines_cons_eq, if_pos rfl]
  | cons c cs ih =>
    have hc : ¬ c = '\n' := fun hh => h (hh ▸ List.mem_cons_self _ _)
    have hcs : '\n' ∉ cs := fun hh => h (List.mem_cons_of_mem _ hh)
    rw [List.cons_append]
    exact pySplitLines_cons_of_ne _ hc (ih hcs)

theorem pySplit_pyJoin {L : List (List Char)} (hne : L ≠ [])
    (hnl : ∀ l ∈ L, '\n' ∉ l) : pySplitLines (pyJoinLines L) = L := by
  induction L with
  | nil => exact absurd rfl hne
  | cons l0 ls ih =>
    have hl0 : '\n' ∉ l0 := hnl l0 (List.mem_cons_self _ _)
    cases ls with
    | nil =>
      show pySplitLines l0 = [l0]
      exact pySplitLines_no_nl hl0
    | cons l1 ls1 =>
      have hrest : pySplitLines (pyJoinLines (l1 :: ls1)) = l1 :: ls1 :=
        ih (by simp) (fun l hm => hnl l (List.mem_cons_of_mem _ hm))
      show pySplitLines (l0 ++ '\n' :: pyJoinLines (l1 :: ls1)) = l0 :: l1 :: ls1
      rw [pySplitLines_append_newline _ hl0, hrest]

/- ## C2 theorem: control-file coalescing -/

/-- C2: writing payload A then payload B to the same control file with no
consume in between leaves only B retrievable: the read-and-consume returns
exactly B and deletes the file, so the channel holds at most one pending
command (screenshot.py lines 123-125 producer, the generated Lua
`readControlFile` consumer from run_project.py lines 113-123). -/
theorem control_file_coalescing (fs : FileSys) (path A B : String) :
    (read_and_consume (write_control (write_control fs path A) path B) path).1 = some B ∧
    (read_and_consume (write_control (write_control fs path A) path B) path).2 path = none := by
  simp [read_and_consume, write_control]

/- ## InjectionManager (run_project.py, inject_module_into_main_lua lines 466-514)

The entry script's text is a `List Char`; the function returns
(newly-injected?, resulting file text), mirroring the Python function that
returns a bool and rewrites the file in full. -/

/-- A single quote character, Python `"'"`. -/
def singleQuote : Char := Char.ofNat 39

/-- Python `f'require("{module_name}")'`. -/
def requireDouble (module_name : List Char) : List Char :=
  "require(\"".toList ++ module_name ++ "\")".toList

/-- Python `f"require('{module_name}')"`. -/
def requireSingle (module_name : List Char) : List Char :=
  "require(".toList ++ [singleQuote] ++ module_name ++ [singleQuote] ++ ")".toList

/-- The line inserted by the injection step, with its trailing comment. -/
def injectedLine (module_name : List Char) : List Char :=
  requireDouble module_name ++ "  -- Auto-injected by MCP server".toList

/-- First-loop test (a): `'mobdebug' in line.lower() and 'require' in line`. -/
def isMobdebugRequire (line : List Char) : Bool :=
  containsSub "mobdebug".toList (pyLower line) && containsSub "require".toList line

/-- First-loop test (b): `'require' in line and not line.strip().startswith('--')`. -/
def isNonCommentRequire (line : List Char) : Bool :=
  containsSub "require".toList line && !(beginsWith "--".toList (pyStrip line))

/-- Second-loop test: `stripped and not stripped.startswith('--')`. -/
def isNonBlankNonComment (line : List Char) : Bool :=
  !(pyStrip line).isEmpty && !(beginsWith "--".toList (pyStrip line))

/-- The first `for i, line in enumerate(lines)` loop of
`inject_module_into_main_lua`: breaks with `i + 1` after a mobdebug require
line, or with `i` at a non-comment require line; `none` when it never breaks. -/
def findInsertLoop1 : List (List Char) → Nat → Option Nat
  | [], _ => none
  | line :: rest, i =>
    if isMobdebugRequire line then some (i + 1)
    else if isNonCommentRequire line then some i
    else findInsertLoop1 rest (i + 1)

/-- The second loop: index of the first non-blank, non-comment line. -/
def findInsertLoop2 : List (List Char) → Nat → Option Nat
  | [], _ => none
  | line :: rest, i =>
    if isNonBlankNonComment line then some i
    else findInsertLoop2 rest (i + 1)

/-- The insertion-index computation of `inject_module_into_main_lua`
lines 479-501: `insert_index` starts at 0, the first loop may set it, and
the second loop runs whenever it is still 0 afterwards. -/
def insertIndexFor (lines : List (List Char)) : Nat :=
  let idx1 := (findInsertLoop1 lines 0).getD 0
  if idx1 = 0 then (findInsertLoop2 lines 0).getD 0 else idx1

/-- run_project.py `inject_module_into_main_lua(main_lua_path, module_name)`,
acting on the file's text instead of its path. -/
def inject_module_into_main_lua (content module_name : List Char) : Bool × List Char :=
  let require_str := requireDouble module_name
  let require_str_single := requireSingle module_name
  if containsSub require_str content || containsSub require_str_single content then
    (false, content)
  else
    let lines := pySplitLines content
    let insert_index := insertIndexFor lines
    let newLines := pyInsertAt lines insert_index (injectedLine module_name)
    (true, pyJoinLines newLines)

/-- Number of lines of `content` referencing the companion by either
quoting style. -/
def refLineCount (content module_name : List Char) : Nat :=
  ((pySplitLines content).filter
    (fun l => containsSub (requireDouble module_name) l ||
              containsSub (requireSingle module_name) l)).length

/- ## Lemmas about stripping, and the injection loops -/

theorem all_space_of_pyStrip_nil {l : List Char} (h : pyStrip l = []) :
    ∀ c ∈ l, isPySpace c = true := by
  unfold pyStrip at h
  have h1 : (l.dropWhile isPySpace).reverse.dropWhile isPySpace = [] := by
    rwa [List.reverse_eq_nil_iff] at h
  have h2 : ∀ c ∈ (l.dropWhile isPySpace).reverse, isPySpace c = true :=
    List.dropWhile_eq_nil_iff.mp h1
  intro c hc
  have hc' : c ∈ l.takeWhile isPySpace ++ l.dropWhile isPySpace := by
    rw [List.takeWhile_append_dropWhile]; exact hc
  rcases List.mem_append.mp hc' with h3 | h3
  · exact List.mem_takeWhile_imp h3
  · exact h2 c (List.mem_reverse.mpr h3)

theorem isNonBlankNonComment_of_require {l : List Char}
    (h : isNonCommentRequire l = true) : isNonBlankNonComment l = true := by
  unfold isNonCommentRequire at h
  rw [Bool.and_eq_true] at h
  obtain ⟨hreq, hcomment⟩ := h
  unfold isNonBlankNonComment
  rw [Bool.and_eq_true]
  refine ⟨?_, hcomment⟩
  rw [Bool.not_eq_true']
  have hne : pyStrip l ≠ [] := by
    intro hnil
    obtain ⟨pre, post, hp⟩ := exists_of_containsSub hreq
    have hr : 'r' ∈ l := by
      rw [hp]
      refine List.mem_append.mpr (Or.inl ?_)
      refine List.mem_append.mpr (Or.inr ?_)
      decide
    have := all_space_of_pyStrip_nil hnil 'r' hr
    simp [isPySpace] at this
  cases hps : pyStrip l with
  | nil => exact absurd hps hne
  | cons a as => rfl

theorem findInsertLoop1_none {lines : List (List Char)}
    (hnone : ∀ l ∈ lines, isMobdebugRequire l = false ∧ isNonCommentRequire l = false) :
    ∀ i, findInsertLoop1 lines i = none := by
  induction lines with
  | nil => intro i; rfl
  | cons l0 rest ih =>
    intro i
    have h0 := hnone l0 (List.mem_cons_self _ _)
    show (if isMobdebugRequire l0 then some (i + 1)
          else if isNonCommentRequire l0 then some i
          else findInsertLoop1 rest (i + 1)) = none
    rw [h0.1, h0.2]
    simp only [if_false, Bool.false_eq_true]
    exact ih (fun l hm => hnone l (List.mem_cons_of_mem _ hm)) (i + 1)

theorem findInsertLoop1_found {lines : List (List Char)} {j : Nat} {line : List Char}
    (hj : lines.get? j = some line)
    (hbefore : ∀ k l', k < j → lines.get? k = some l' →
      isMobdebugRequire l' = false ∧ isNonCommentRequire l' = false)
    (hmatch : isMobdebugRequire line = true ∨ isNonCommentRequire line = true) :
    ∀ i, findInsertLoop1 lines i =
      some (if isMobdebugRequire line then i + j + 1 else i + j) := by
  induction lines generalizing j with
  | nil => simp at hj
  | cons l0 rest ih =>
    cases j with
    | zero =>
      have hline : l0 = line := by
        have : some l0 = some line := hj
        exact Option.some.inj this
      subst hline
      intro i
      show (if isMobdebugRequire l0 then some (i + 1)
            else if isNonCommentRequire l0 then some i
            else findInsertLoop1 rest (i + 1)) =
        some (if isMobdebugRequire l0 then i + 0 + 1 else i + 0)
      by_cases hA : isMobdebugRequire l0 = true
      · rw [if_pos hA, if_pos hA]
      · rw [if_neg hA, if_neg hA]
        have hB : isNonCommentRequire l0 = true := by
          rcases hmatch with h | h
          · exact absurd h hA
          · exact h
        rw [if_pos hB]
        rfl
    | succ j' =>
      have h0 := hbefore 0 l0 (Nat.succ_pos j') rfl
      intro i
      show (if isMobdebugRequire l0 then some (i + 1)
            else if isNonCommentRequire l0 then some i
            else findInsertLoop1 rest (i + 1)) =
        some (if isMobdebugRequire line then i + (j' + 1) + 1 else i + (j' + 1))
      rw [h0.1, h0.2]
      simp only [if_false, Bool.false_eq_true]
      have hj' : rest.get? j' = some line := hj
      have hbefore' : ∀ k l', k < j' → rest.get? k = some l' →
          isMobdebugRequire l' = false ∧ isNonCommentRequire l' = false := by
        intro k l' hk hkl
        exact hbefore (k + 1) l' (Nat.succ_lt_succ hk) hkl
      have := ih hj' hbefore' (i + 1)
      rw [this]
      congr 1
      by_cases hA : isMobdebugRequire line = true
      · rw [if_pos hA, if_pos hA]; omega
      · rw [if_neg hA, if_neg hA]; omega

theorem findInsertLoop2_none {lines : List (List Char)}
    (hnone : ∀ l ∈ lines, isNonBlankNonComment l = false) :
    ∀ i, findInsertLoop2 lines i = none := by
  induction lines with
  | nil => intro i; rfl
  | cons l0 rest ih =>
    intro i
    show (if isNonBlankNonComment l0 then some i else findInsertLoop2 rest (i + 1)) = none
    rw [hnone l0 (List.mem_cons_self _ _)]
    simp only [if_false, Bool.false_eq_true]
    exact ih (fun l hm => hnone l (List.mem_cons_of_mem _ hm)) (i + 1)

theorem findInsertLoop2_found {lines : List (List Char)} {j : Nat} {line : List Char}
    (hj : lines.get? j = some line)
    (hbefore : ∀ k l', k < j → lines.get? k = some l' → isNonBlankNonComment l' = false)
    (hmatch : isNonBlankNonComment line = true) :
    ∀ i, findInsertLoop2 lines i = some (i + j) := by
  induction lines generalizing j with
  | nil => simp at hj
  | cons l0 rest ih =>
    cases j with
    | zero =>
      have hline : l0 = line := Option.some.inj hj
      subst hline
      intro i
      show (if isNonBlankNonComment l0 then some i else findInsertLoop2 rest (i + 1)) =
        some (i + 0)
      rw [if_pos hmatch]
      rfl
    | succ j' =>
      intro i
      show (if isNonBlankNonComment l0 then some i else findInsertLoop2 rest (i + 1)) =
        some (i + (j' + 1))
      rw [hbefore 0 l0 (Nat.succ_pos j') rfl]
      simp only [if_false, Bool.false_eq_true]
      have hbefore' : ∀ k l', k < j' → rest.get? k = some l' →
          isNonBlankNonComment l' = false := by
        intro k l' hk hkl
        exact hbefore (k + 1) l' (Nat.succ_lt_succ hk) hkl
      have := ih hj hbefore' (i + 1)
      rw [this]
      congr 1
      omega

/-- The file text produced by a fresh injection (the not-already-present
branch of `inject_module_into_main_lua`). -/
def injectResultText (content module_name : List Char) : List Char :=
  pyJoinLines (pyInsertAt (pySplitLines content)
    (insertIndexFor (pySplitLines content)) (injectedLine module_name))

theorem newline_not_mem_injectedLine {m : List Char} (hm : '\n' ∉ m) :
    '\n' ∉ injectedLine m := by
  unfold injectedLine requireDouble
  intro h
  rcases List.mem_append.mp h with h1 | h1
  · rcases List.mem_append.mp h1 with h2 | h2
    · rcases List.mem_append.mp h2 with h3 | h3
      · revert h3; decide
      · exact hm h3
    · revert h2; decide
  · revert h1; decide

theorem containsSub_requireDouble_injectedLine (m : List Char) :
    containsSub (requireDouble m) (injectedLine m) = true :=
  containsSub_of_append [] ("  -- Auto-injected by MCP server".toList)
    (by simp [injectedLine])

theorem inject_fresh {content m : List Char}
    (hd : containsSub (requireDouble m) content = false)
    (hs : containsSub (requireSingle m) content = false) :
    inject_module_into_main_lua content m = (true, injectResultText content m) := by
  simp [inject_module_into_main_lua, injectResultText, hd, hs]

theorem mem_injectLines {content m l : List Char}
    (hl : l ∈ pyInsertAt (pySplitLines content)
      (insertIndexFor (pySplitLines content)) (injectedLine m)) :
    l = injectedLine m ∨ l ∈ pySplitLines content := by
  unfold pyInsertAt at hl
  rcases List.mem_append.mp hl with h1 | h1
  · exact Or.inr (List.take_subset _ _ h1)
  · rcases List.mem_cons.mp h1 with h2 | h2
    · exact Or.inl h2
    · exact Or.inr (List.drop_subset _ _ h2)

theorem injectLines_no_newline {content m : List Char} (hm : '\n' ∉ m) :
    ∀ l ∈ pyInsertAt (pySplitLines content)
      (insertIndexFor (pySplitLines content)) (injectedLine m), '\n' ∉ l := by
  intro l hl
  rcases mem_injectLines hl with rfl | h
  · exact newline_not_mem_injectedLine hm
  · exact newline_not_mem_pySplitLines h

theorem injectLines_ne_nil (content m : List Char) :
    pyInsertAt (pySplitLines content)
      (insertIndexFor (pySplitLines content)) (injectedLine m) ≠ [] := by
  unfold pyInsertAt
  intro h
  rcases List.append_eq_nil.mp h with ⟨_, h2⟩
  exact List.cons_ne_nil _ _ h2

theorem pySplit_injectResultText {content m : List Char} (hm : '\n' ∉ m) :
    pySplitLines (injectResultText content m) =
      pyInsertAt (pySplitLines content)
        (insertIndexFor (pySplitLines content)) (injectedLine m) :=
  pySplit_pyJoin (injectLines_ne_nil content m) (injectLines_no_newline hm)

theorem refLineCount_injectResultText {content m : List Char}
    (hd : containsSub (requireDouble m) content = false)
    (hs : containsSub (requireSingle m) content = false)
    (hm : '\n' ∉ m) :
    refLineCount (injectResultText content m) m = 1 := by
  unfold refLineCount
  rw [pySplit_injectResultText hm]
  unfold pyInsertAt
  rw [List.filter_append, List.filter_cons]
  have hpred_ins : (containsSub (requireDouble m) (injectedLine m) ||
      containsSub (requireSingle m) (injectedLine m)) = true := by
    rw [containsSub_requireDouble_injectedLine]
    rfl
  have hpred_L : ∀ l ∈ pySplitLines content,
      (containsSub (requireDouble m) l || containsSub (requireSingle m) l) = false := by
    intro l hlm
    have h1 : containsSub (requireDouble m) l = false := by
      cases hc : containsSub (requireDouble m) l
      · rfl
      · have := containsSub_of_mem_split hlm hc
        rw [hd] at this
        exact absurd this (by simp)
    have h2 : containsSub (requireSingle m) l = false := by
      cases hc : containsSub (requireSingle m) l
      · rfl
      · have := containsSub_of_mem_split hlm hc
        rw [hs] at this
        exact absurd this (by simp)
    rw [h1, h2]
    rfl
  have ht : ((pySplitLines content).take (insertIndexFor (pySplitLines content))).filter
      (fun l => containsSub (requireDouble m) l || containsSub (requireSingle m) l) = [] := by
    rw [List.filter_eq_nil_iff]
    intro a ha
    rw [hpred_L a (List.take_subset _ _ ha)]
    simp
  have hdrp : ((pySplitLines content).drop (insertIndexFor (pySplitLines content))).filter
      (fun l => containsSub (requireDouble m) l || containsSub (requireSingle m) l) = [] := by
    rw [List.filter_eq_nil_iff]
    intro a ha
    rw [hpred_L a (List.drop_subset _ _ ha)]
    simp
  rw [ht, hdrp, if_pos hpred_ins]
  rfl

theorem containsSub_injectResultText {content : List Char} (m : List Char) :
    containsSub (requireDouble m) (injectResultText content m) = true := by
  have hmem : injectedLine m ∈ pyInsertAt (pySplitLines content)
      (insertIndexFor (pySplitLines content)) (injectedLine m) := by
    unfold pyInsertAt
    exact List.mem_append.mpr (Or.inr (List.mem_cons_self _ _))
  obtain ⟨pre, post, hp⟩ := pyJoin_mem_infix hmem
  refine containsSub_of_append pre ("  -- Auto-injected by MCP server".toList ++ post) ?_
  unfold injectResultText
  rw [hp]
  simp [injectedLine]

/-- C4: on an entry script that does not yet reference the companion by
either quoting style, injection inserts the reference and returns true;
the result contains exactly one reference line; and a second call detects
the reference, returns false, and leaves the text unchanged
(run_project.py `inject_module_into_main_lua`, lines 466-514). -/
theorem injection_idempotent (content module_name : List Char)
    (hd : containsSub (requireDouble module_name) content = false)
    (hs : containsSub (requireSingle module_name) content = false)
    (hm : '\n' ∉ module_name) :
    (inject_module_into_main_lua content module_name).1 = true ∧
    refLineCount (inject_module_into_main_lua content module_name).2 module_name = 1 ∧
    inject_module_into_main_lua (inject_module_into_main_lua content module_name).2 module_name =
      (false, (inject_module_into_main_lua content module_name).2) := by
  rw [inject_fresh hd hs]
  refine ⟨rfl, refLineCount_injectResultText hd hs hm, ?_⟩
  show inject_module_into_main_lua (injectResultText content module_name) module_name = _
  have hc := @containsSub_injectResultText content module_name
  simp [inject_module_into_main_lua, hc]

/-- C4 witness: a concrete entry script with a leading comment and a
require line, injected with the logger companion. -/
theorem injection_idempotent_witness :
    (inject_module_into_main_lua "-- main\nrequire(\"composer\")\nprint(1)".toList
      "_mcp_logger".toList).1 = true ∧
    refLineCount (inject_module_into_main_lua "-- main\nrequire(\"composer\")\nprint(1)".toList
      "_mcp_logger".toList).2 "_mcp_logger".toList = 1 ∧
    inject_module_into_main_lua
      (inject_module_into_main_lua "-- main\nrequire(\"composer\")\nprint(1)".toList
        "_mcp_logger".toList).2 "_mcp_logger".toList =
      (false, (inject_module_into_main_lua "-- main\nrequire(\"composer\")\nprint(1)".toList
        "_mcp_logger".toList).2) :=
  injection_idempotent _ _ (by decide) (by decide) (by decide)

/-- C8 counterexample: in a script whose first line is a plain non-comment
require and whose second line is a mobdebug require, the code inserts at
index 0, not after the mobdebug line (index 2) as the claimed priority
order (a)-before-(b) would demand. -/
theorem injection_insert_priority_counterexample :
    isMobdebugRequire "local mobdebug = require(\"mobdebug\")".toList = true ∧
    insertIndexFor ["require(\"composer\")".toList,
      "local mobdebug = require(\"mobdebug\")".toList] = 0 ∧
    (0 : Nat) ≠ 1 + 1 := by
  refine ⟨by decide, by decide, by decide⟩

/-- C8 (amended): the insertion index is chosen by one top-to-bottom scan
stopping at the first line that matches either pattern - after a mobdebug
require line, or before a non-comment require line, whichever comes first
(so a non-comment require line above the mobdebug line takes precedence);
when no line matches either, insertion goes before the first non-blank
non-comment line, else at the top; and the inserted reference is the
double-quoted require with its trailing explanatory comment
(run_project.py lines 479-508). -/
theorem injection_insert_priority (lines : List (List Char)) :
    (∀ j line, lines.get? j = some line →
      (∀ k l', k < j → lines.get? k = some l' →
        isMobdebugRequire l' = false ∧ isNonCommentRequire l' = false) →
      (isMobdebugRequire line = true → insertIndexFor lines = j + 1) ∧
      (isMobdebugRequire line = false → isNonCommentRequire line = true →
        insertIndexFor lines = j)) ∧
    ((∀ l ∈ lines, isMobdebugRequire l = false ∧ isNonCommentRequire l = false) →
      (∀ j line, lines.get? j = some line →
        (∀ k l', k < j → lines.get? k = some l' → isNonBlankNonComment l' = false) →
        isNonBlankNonComment line = true → insertIndexFor lines = j) ∧
      ((∀ l ∈ lines, isNonBlankNonComment l = false) → insertIndexFor lines = 0)) ∧
    (∀ content m, containsSub (requireDouble m) content = false →
      containsSub (requireSingle m) content = false →
      inject_module_into_main_lua content m =
        (true, pyJoinLines (pyInsertAt (pySplitLines content)
          (insertIndexFor (pySplitLines content))
          (requireDouble m ++ "  -- Auto-injected by MCP server".toList)))) := by
  refine ⟨?_, ?_, ?_⟩
  · intro j line hj hbefore
    constructor
    · intro hA
      have h1 := findInsertLoop1_found hj hbefore (Or.inl hA) 0
      rw [hA] at h1
      unfold insertIndexFor
      rw [h1]
      simp
    · intro hA hB
      have h1 := findInsertLoop1_found hj hbefore (Or.inr hB) 0
      rw [hA] at h1
      simp only [Bool.false_eq_true, if_false, Nat.zero_add] at h1
      unfold insertIndexFor
      rw [h1]
      cases hjz : j with
      | zero =>
        subst hjz
        simp only [Option.getD_some, if_pos rfl]
        have hNB : isNonBlankNonComment line = true := isNonBlankNonComment_of_require hB
        have h2 := findInsertLoop2_found hj (fun k l' hk _ => absurd hk (Nat.not_lt_zero k)) hNB 0
        rw [h2]
        rfl
      | succ j' =>
        subst hjz
        simp
  · intro hnone
    have h1 := findInsertLoop1_none hnone 0
    constructor
    · intro j line hj hbefore hNB
      have h2 := findInsertLoop2_found hj hbefore hNB 0
      rw [Nat.zero_add] at h2
      unfold insertIndexFor
      rw [h1, h2]
      rfl
    · intro hnb
      have h2 := findInsertLoop2_none hnb 0
      unfold insertIndexFor
      rw [h1, h2]
      rfl
  · intro content m hd hs
    exact inject_fresh hd hs

/-- C8 witness: a script with a mobdebug require on its second line and no
earlier require gets the reference inserted at index 2, immediately after
the mobdebug line. -/
theorem injection_insert_priority_witness :
    insertIndexFor ["-- comment".toList,
      "local mobdebug = require(\"mobdebug\")".toList, "print(1)".toList] = 2 :=
  ((injection_insert_priority _).1 1 "local mobdebug = require(\"mobdebug\")".toList
    (by decide)
    (by
      intro k l' hk hkl
      interval_cases k
      · have hcl : "-- comment".toList = l' := Option.some.inj hkl
        subst hcl
        decide)
    ).1 (by decide)

/- ## ProcessSupervisor (run_project.py `handle` lines 565-697,
utils.py `running_projects` line 11)

A resolved project directory is modelled as its path components
(`List String`); `running_projects` is keyed by `project_dir`, the full
parent-directory path of the resolved main.lua (run_project.py line 604),
while every derived artifact path uses only the leaf name
`Path(project_dir).name` (line 625). The outside world - whether the
simulator binary is configured, whether main.lua exists, whether the old
process is still alive (`poll() is None`), whether it exits within the
2-second `wait(timeout=2)` grace period, and the pid `Popen` assigns -
is a `LaunchEnv` record. Signals sent and registry mutations are traced
as `SupEvent`s in program order. -/

/-- One entry of `running_projects`: ``{"pid": ..., "log_file": ...,
"process": ..., "main_lua": ...}``. -/
structure RunningInstance where
  pid : Nat
  log_file : String
  main_lua : List String
  deriving DecidableEq, Repr

/-- The `running_projects` dict: project-directory path to instance. -/
def RunningMap : Type := List String → Option RunningInstance

/-- `Path(project_dir).name` - the leaf directory name. -/
def leafName (projectDir : List String) : String := projectDir.getLastD ""

/-- The resolved `main_lua_path` below a project directory. -/
def mainLuaPath (projectDir : List String) : List String := projectDir ++ ["main.lua"]

/-- run_project.py line 626: `os.path.join(tempfile.gettempdir(),
f"corona_log_{project_name}.txt")`. -/
def logFilePath (tmp project_name : String) : String :=
  tmp ++ "/corona_log_" ++ project_name ++ ".txt"

/-- run_project.py line 91 / screenshot.py line 100:
`solar2d_screenshots_{project_name}` under the temp dir. -/
def screenshotDirPath (tmp project_name : String) : String :=
  tmp ++ "/solar2d_screenshots_" ++ project_name

/-- run_project.py line 92 / screenshot.py line 105: the screenshot
control file. -/
def screenshotControlPath (tmp project_name : String) : String :=
  tmp ++ "/solar2d_screenshots_" ++ project_name ++ ".control"

/-- run_project.py line 247 / touch.py line 128: the touch control file. -/
def touchControlPath (tmp project_name : String) : String :=
  tmp ++ "/solar2d_touch_" ++ project_name ++ ".control"

/-- run_project.py line 248 / touch.py line 133: the display-info file. -/
def displayInfoPath (tmp project_name : String) : String :=
  tmp ++ "/solar2d_display_" ++ project_name ++ ".json"

/-- Observable supervisor actions, in program order. -/
inductive SupEvent where
  | sigterm (pid : Nat)
  | sigkill (pid : Nat)
  | evict (key : List String)
  | record (key : List String) (pid : Nat)
  deriving DecidableEq, Repr

/-- Environment facts consulted by one `handle` call. -/
structure LaunchEnv where
  simulatorOk : Bool
  mainLuaExists : Bool
  spawnOk : Bool
  newPid : Nat
  oldStillRunning : Bool
  oldExitsInGrace : Bool
  deriving DecidableEq, Repr

/-- Outcome of one `handle` call. -/
inductive LaunchResult where
  | launched (pid : Nat)
  | failed (msg : String)
  deriving DecidableEq, Repr

/-- run_project.py lines 606-615: `if project_dir in running_projects:`
terminate if still running (`terminate()`, `wait(timeout=2)`, `kill()` on
timeout) and `del running_projects[project_dir]`. -/
def terminateExisting (env : LaunchEnv) (m : RunningMap) (projectDir : List String) :
    RunningMap × List SupEvent :=
  match m projectDir with
  | none => (m, [])
  | some inst =>
    (fun k => if k = projectDir then none else m k,
     (if env.oldStillRunning then
        SupEvent.sigterm inst.pid ::
          (if env.oldExitsInGrace then [] else [SupEvent.sigkill inst.pid])
      else []) ++ [SupEvent.evict projectDir])

/-- run_project.py `handle`: configuration check, termination of any
existing instance for the same project directory, main.lua existence
check, spawn, and registration (lines 596-667). -/
def run_solar2d_project (env : LaunchEnv) (tmp : String) (m : RunningMap)
    (projectDir : List String) : LaunchResult × RunningMap × List SupEvent :=
  if env.simulatorOk = false then
    (.failed "Solar2D Simulator not found", m, [])
  else
    let p := terminateExisting env m projectDir
    if env.mainLuaExists = false then
      (.failed "main.lua not found", p.1, p.2)
    else
      let log_file := logFilePath tmp (leafName projectDir)
      if env.spawnOk then
        (.launched env.newPid,
         fun k => if k = projectDir then
             some ⟨env.newPid, log_file, mainLuaPath projectDir⟩
           else p.1 k,
         p.2 ++ [SupEvent.record projectDir env.newPid])
      else
        (.failed "Error launching Solar2D Simulator", p.1, p.2)

theorem terminateExisting_fst_ne (env : LaunchEnv) (m : RunningMap)
    (projectDir k : List String) (hk : k ≠ projectDir) :
    (terminateExisting env m projectDir).1 k = m k := by
  cases hm : m projectDir <;> simp [terminateExisting, hm, hk]

theorem run_ok (env : LaunchEnv) (tmp : String) (m : RunningMap)
    (projectDir : List String) (h1 : env.simulatorOk = true)
    (h2 : env.mainLuaExists = true) (h3 : env.spawnOk = true) :
    run_solar2d_project env tmp m projectDir =
      (.launched env.newPid,
       fun k => if k = projectDir then
           some ⟨env.newPid, logFilePath tmp (leafName projectDir), mainLuaPath projectDir⟩
         else (terminateExisting env m projectDir).1 k,
       (terminateExisting env m projectDir).2 ++
         [SupEvent.record projectDir env.newPid]) := by
  simp [run_solar2d_project, h1, h2, h3]

/-- C1: launching the same project directory twice leaves exactly one
registered instance - the second pid under the project key, every other
key untouched - and, when the first process is still running, the second
launch sends it a graceful terminate, force-kills it only if it does not
exit within the 2-second grace (`oldExitsInGrace` false), and evicts its
registry entry strictly before recording the new instance
(run_project.py lines 606-615 and 661-667). -/
theorem instance_replacement (tmp : String) (m0 : RunningMap)
    (projectDir : List String) (env1 env2 : LaunchEnv)
    (h1 : env1.simulatorOk = true) (h2 : env1.mainLuaExists = true)
    (h3 : env1.spawnOk = true)
    (h4 : env2.simulatorOk = true) (h5 : env2.mainLuaExists = true)
    (h6 : env2.spawnOk = true) (h7 : env2.oldStillRunning = true) :
    ∀ r1 m1 ev1, run_solar2d_project env1 tmp m0 projectDir = (r1, m1, ev1) →
    ∀ r2 m2 ev2, run_solar2d_project env2 tmp m1 projectDir = (r2, m2, ev2) →
      m2 projectDir = some ⟨env2.newPid, logFilePath tmp (leafName projectDir),
        mainLuaPath projectDir⟩ ∧
      (∀ k, k ≠ projectDir → m2 k = m0 k) ∧
      SupEvent.sigterm env1.newPid ∈ ev2 ∧
      (env2.oldExitsInGrace = false → SupEvent.sigkill env1.newPid ∈ ev2) ∧
      (∃ i j, i < j ∧ ev2.get? i = some (SupEvent.evict projectDir) ∧
        ev2.get? j = some (SupEvent.record projectDir env2.newPid)) := by
  intro r1 m1 ev1 hrun1 r2 m2 ev2 hrun2
  rw [run_ok env1 tmp m0 projectDir h1 h2 h3] at hrun1
  rw [run_ok env2 tmp m1 projectDir h4 h5 h6] at hrun2
  have hm1 : m1 = fun k => if k = projectDir then
      some ⟨env1.newPid, logFilePath tmp (leafName projectDir), mainLuaPath projectDir⟩
    else (terminateExisting env1 m0 projectDir).1 k :=
    (congrArg (fun t => t.2.1) hrun1).symm
  have hm2 : m2 = fun k => if k = projectDir then
      some ⟨env2.newPid, logFilePath tmp (leafName projectDir), mainLuaPath projectDir⟩
    else (terminateExisting env2 m1 projectDir).1 k :=
    (congrArg (fun t => t.2.1) hrun2).symm
  have hev2 : ev2 = (terminateExisting env2 m1 projectDir).2 ++
      [SupEvent.record projectDir env2.newPid] :=
    (congrArg (fun t => t.2.2) hrun2).symm
  have hm1p : m1 projectDir =
      some ⟨env1.newPid, logFilePath tmp (leafName projectDir), mainLuaPath projectDir⟩ := by
    rw [hm1]; simp
  have htermev : (terminateExisting env2 m1 projectDir).2 =
      SupEvent.sigterm env1.newPid ::
        ((if env2.oldExitsInGrace then [] else [SupEvent.sigkill env1.newPid]) ++
          [SupEvent.evict projectDir]) := by
    simp [terminateExisting, hm1p, h7]
  refine ⟨?_, ?_, ?_, ?_, ?_⟩
  · rw [hm2]; simp
  · intro k hk
    rw [hm2]
    simp only [if_neg hk]
    rw [terminateExisting_fst_ne env2 m1 projectDir k hk, hm1]
    simp only [if_neg hk]
    exact terminateExisting_fst_ne env1 m0 projectDir k hk
  · rw [hev2, htermev]; simp
  · intro hg
    rw [hev2, htermev, hg]
    simp
  · rw [hev2, htermev]
    cases hg : env2.oldExitsInGrace
    · exact ⟨2, 3, by omega, rfl, rfl⟩
    · exact ⟨1, 2, by omega, rfl, rfl⟩

/-- C1 witness: two concrete launches of the same project, the first
giving pid 11, the second pid 12 with the first still alive and exiting
within the grace period. -/
theorem instance_replacement_witness :
    (run_solar2d_project ⟨true, true, true, 12, true, true⟩ "/tmp"
        (run_solar2d_project ⟨true, true, true, 11, false, false⟩ "/tmp"
          (fun _ => none) ["home", "game"]).2.1 ["home", "game"]).2.1 ["home", "game"] =
      some ⟨12, logFilePath "/tmp" (leafName ["home", "game"]),
        mainLuaPath ["home", "game"]⟩ ∧
    SupEvent.sigterm 11 ∈
      (run_solar2d_project ⟨true, true, true, 12, true, true⟩ "/tmp"
        (run_solar2d_project ⟨true, true, true, 11, false, false⟩ "/tmp"
          (fun _ => none) ["home", "game"]).2.1 ["home", "game"]).2.2 := by
  have h := instance_replacement "/tmp" (fun _ => none) ["home", "game"]
    ⟨true, true, true, 11, false, false⟩ ⟨true, true, true, 12, true, true⟩
    rfl rfl rfl rfl rfl rfl rfl
    _ _ _ rfl _ _ _ rfl
  exact ⟨h.1, h.2.2.1⟩

/-- C9: the registry is keyed by the full parent-directory path, but every
derived artifact path uses only the leaf directory name, so two projects at
different directories sharing a leaf name get two distinct registry entries
while their log, screenshot-directory, control and display-info paths all
coincide (run_project.py lines 602-626, utils.py line 11). -/
theorem registry_key_vs_artifact_namespace (tmp : String) (m0 : RunningMap)
    (d1 d2 : List String) (env1 env2 : LaunchEnv)
    (hne : d1 ≠ d2) (hleaf : leafName d1 = leafName d2)
    (h1 : env1.simulatorOk = true) (h2 : env1.mainLuaExists = true)
    (h3 : env1.spawnOk = true)
    (h4 : env2.simulatorOk = true) (h5 : env2.mainLuaExists = true)
    (h6 : env2.spawnOk = true) :
    ∀ r1 m1 ev1, run_solar2d_project env1 tmp m0 d1 = (r1, m1, ev1) →
    ∀ r2 m2 ev2, run_solar2d_project env2 tmp m1 d2 = (r2, m2, ev2) →
      m2 d1 = some ⟨env1.newPid, logFilePath tmp (leafName d1), mainLuaPath d1⟩ ∧
      m2 d2 = some ⟨env2.newPid, logFilePath tmp (leafName d2), mainLuaPath d2⟩ ∧
      logFilePath tmp (leafName d1) = logFilePath tmp (leafName d2) ∧
      screenshotDirPath tmp (leafName d1) = screenshotDirPath tmp (leafName d2) ∧
      screenshotControlPath tmp (leafName d1) = screenshotControlPath tmp (leafName d2) ∧
      touchControlPath tmp (leafName d1) = touchControlPath tmp (leafName d2) ∧
      displayInfoPath tmp (leafName d1) = displayInfoPath tmp (leafName d2) := by
  intro r1 m1 ev1 hrun1 r2 m2 ev2 hrun2
  rw [run_ok env1 tmp m0 d1 h1 h2 h3] at hrun1
  rw [run_ok env2 tmp m1 d2 h4 h5 h6] at hrun2
  have hm1 : m1 = fun k => if k = d1 then
      some ⟨env1.newPid, logFilePath tmp (leafName d1), mainLuaPath d1⟩
    else (terminateExisting env1 m0 d1).1 k :=
    (congrArg (fun t => t.2.1) hrun1).symm
  have hm2 : m2 = fun k => if k = d2 then
      some ⟨env2.newPid, logFilePath tmp (leafName d2), mainLuaPath d2⟩
    else (terminateExisting env2 m1 d2).1 k :=
    (congrArg (fun t => t.2.1) hrun2).symm
  refine ⟨?_, ?_, ?_, ?_, ?_, ?_, ?_⟩
  · rw [hm2]
    simp only [if_neg hne]
    rw [terminateExisting_fst_ne env2 m1 d2 d1 hne, hm1]
    simp
  · rw [hm2]; simp
  · rw [hleaf]
  · rw [hleaf]
  · rw [hleaf]
  · rw [hleaf]
  · rw [hleaf]

/-- C9 witness: `/projects/alice/game` and `/projects/bob/game` collide on
every artifact path while occupying two registry keys. -/
theorem registry_key_vs_artifact_namespace_witness :
    (run_solar2d_project ⟨true, true, true, 22, false, false⟩ "/tmp"
      (run_solar2d_project ⟨true, true, true, 21, false, false⟩ "/tmp"
        (fun _ => none) ["projects", "alice", "game"]).2.1
      ["projects", "bob", "game"]).2.1 ["projects", "alice", "game"] =
      some ⟨21, logFilePath "/tmp" (leafName ["projects", "alice", "game"]),
        mainLuaPath ["projects", "alice", "game"]⟩ ∧
    (run_solar2d_project ⟨true, true, true, 22, false, false⟩ "/tmp"
      (run_solar2d_project ⟨true, true, true, 21, false, false⟩ "/tmp"
        (fun _ => none) ["projects", "alice", "game"]).2.1
      ["projects", "bob", "game"]).2.1 ["projects", "bob", "game"] =
      some ⟨22, logFilePath "/tmp" (leafName ["projects", "bob", "game"]),
        mainLuaPath ["projects", "bob", "game"]⟩ ∧
    logFilePath "/tmp" (leafName ["projects", "alice", "game"]) =
      logFilePath "/tmp" (leafName ["projects", "bob", "game"]) := by
  have h := registry_key_vs_artifact_namespace "/tmp" (fun _ => none)
    ["projects", "alice", "game"] ["projects", "bob", "game"]
    ⟨true, true, true, 21, false, false⟩ ⟨true, true, true, 22, false, false⟩
    (by decide) (by decide) rfl rfl rfl rfl rfl rfl
    _ _ _ rfl _ _ _ rfl
  exact ⟨h.1, h.2.1, h.2.2.1⟩

/- ## ScreenshotPoller: on-demand "latest" capture
(screenshot.py `handle_get_screenshot`, lines 165-199)

For `which == "latest"` the handler first writes the trigger token "now"
to the screenshot control file (lines 170-172), only then samples the
sentinel's `old_mtime` - 0 when the file is absent - at line 177, and
then loops 20 times: sleep 0.1s, and return the file's bytes as soon as
its mtime is strictly newer than that baseline; otherwise report a
timeout. The environment supplies the sentinel mtime observed at the
sampling instant (an instant that already follows the trigger write) and
the sequence of (exists?, mtime, bytes) observations of
`screenshot_latest.jpg` at the 20 successive poll instants; mtimes are
rationals standing for the float seconds of `os.path.getmtime`. The
handler's filesystem actions are traced in program order, so the
trigger-write/baseline-sample ordering is part of the model. -/

/-- State of the "latest" file at one poll instant. -/
structure PollObservation where
  present : Bool
  mtime : ℚ
  bytes : String
  deriving DecidableEq

/-- Result of the on-demand capture. -/
inductive CaptureResult where
  | image (data : String)
  | timeout
  deriving DecidableEq, Repr

/-- 20 polls of 100 ms each: the 2-second cap (`for _ in range(20)`). -/
def pollLimit : Nat := 20

/-- `old_mtime = os.path.getmtime(latest_file) if os.path.exists(latest_file) else 0`. -/
def pollBaseline (pre : Option ℚ) : ℚ := pre.getD 0

/-- The poll loop body: return the file bytes at the first observation
where the file exists with `new_mtime > old_mtime`, else time out. -/
def pollForFresh (baseline : ℚ) : List PollObservation → CaptureResult
  | [] => .timeout
  | o :: rest =>
    if o.present && decide (baseline < o.mtime) then .image o.bytes
    else pollForFresh baseline rest

/-- One filesystem action of the "latest" branch, in program order. -/
inductive CaptureStep where
  | writeTrigger (payload : String)
  | sampleBaseline (observed : Option ℚ)
  | poll (o : PollObservation)
  deriving DecidableEq

/-- screenshot.py lines 165-199, `which == "latest"`: write the "now"
trigger to the control file (lines 170-172), then sample `old_mtime`
(line 177), then poll up to `pollLimit` observations. `atSample` is what
`os.path.getmtime` sees at the sampling instant, after the trigger is
already written. The first component is the action trace in program
order; the second is the call's result. -/
def handle_get_screenshot_latest (atSample : Option ℚ) (obs : List PollObservation) :
    List CaptureStep × CaptureResult :=
  (CaptureStep.writeTrigger "now" :: CaptureStep.sampleBaseline atSample ::
      (obs.take pollLimit).map CaptureStep.poll,
   pollForFresh (pollBaseline atSample) (obs.take pollLimit))

theorem pollForFresh_cons (baseline : ℚ) (o : PollObservation)
    (rest : List PollObservation) :
    pollForFresh baseline (o :: rest) =
      if (o.present && decide (baseline < o.mtime)) = true then .image o.bytes
      else pollForFresh baseline rest := rfl

theorem pollForFresh_image {baseline : ℚ} {obs : List PollObservation} {d : String}
    (h : pollForFresh baseline obs = .image d) :
    ∃ o ∈ obs, o.present = true ∧ baseline < o.mtime ∧ o.bytes = d := by
  induction obs with
  | nil => exact absurd h (by simp [pollForFresh])
  | cons o rest ih =>
    rw [pollForFresh_cons] at h
    by_cases hc : (o.present && decide (baseline < o.mtime)) = true
    · rw [if_pos hc] at h
      obtain ⟨hp, hm⟩ := Bool.and_eq_true .. ▸ hc
      exact ⟨o, List.mem_cons_self _ _, hp, of_decide_eq_true hm,
        (CaptureResult.image.inj h)⟩
    · rw [if_neg hc] at h
      obtain ⟨o', ho', rest'⟩ := ih h
      exact ⟨o', List.mem_cons_of_mem _ ho', rest'⟩

theorem pollForFresh_timeout {baseline : ℚ} {obs : List PollObservation}
    (h : ∀ o ∈ obs, o.present = true → o.mtime ≤ baseline) :
    pollForFresh baseline obs = .timeout := by
  induction obs with
  | nil => rfl
  | cons o rest ih =>
    have hc : (o.present && decide (baseline < o.mtime)) = false := by
      cases hp : o.present
      · rfl
      · have := h o (List.mem_cons_self _ _) hp
        simp [decide_eq_false (not_lt.mpr this)]
    rw [pollForFresh_cons, hc]
    simp only [Bool.false_eq_true, if_false]
    exact ih (fun o' ho' => h o' (List.mem_cons_of_mem _ ho'))

/-- C3 counterexample: the "latest" branch writes the "now" trigger as
its first action (step 0) and samples the sentinel baseline only
afterwards (step 1) - the reverse of the claimed record-then-trigger
order - and this is observable: when the triggered capture completes
before the sample, so that the sample already reads the fresh image's
mtime 10, the call times out even though a fresh image was produced
after the trigger. Under the claimed order the baseline would be the
pre-trigger mtime and the same polls would return the image. -/
theorem on_demand_capture_freshness_counterexample :
    (handle_get_screenshot_latest (some 10)
        (List.replicate 20 ⟨true, 10, "fresh"⟩)).1.get? 0 =
      some (CaptureStep.writeTrigger "now") ∧
    (handle_get_screenshot_latest (some 10)
        (List.replicate 20 ⟨true, 10, "fresh"⟩)).1.get? 1 =
      some (CaptureStep.sampleBaseline (some 10)) ∧
    (handle_get_screenshot_latest (some 10)
        (List.replicate 20 ⟨true, 10, "fresh"⟩)).2 = CaptureResult.timeout := by
  refine ⟨rfl, rfl, ?_⟩
  decide

/-- C3 (amended): the "latest" capture handler writes the trigger token
"now" first and only then records the sentinel's modification time as the
baseline (0 when the file is absent); it then polls at 100ms intervals
for up to 2 seconds, returns image bytes only from an observation whose
modification time is strictly newer than that post-trigger baseline, and
otherwise returns a timeout failure - it never returns a stale image
whose modification time has not advanced past the baseline
(screenshot.py lines 165-199). -/
theorem on_demand_capture_freshness (atSample : Option ℚ)
    (obs : List PollObservation) :
    (handle_get_screenshot_latest atSample obs).1.get? 0 =
      some (CaptureStep.writeTrigger "now") ∧
    (handle_get_screenshot_latest atSample obs).1.get? 1 =
      some (CaptureStep.sampleBaseline atSample) ∧
    (∀ d, (handle_get_screenshot_latest atSample obs).2 = .image d →
      ∃ o ∈ obs.take pollLimit, o.present = true ∧ pollBaseline atSample < o.mtime ∧
        o.bytes = d) ∧
    ((∀ o ∈ obs.take pollLimit, o.present = true → o.mtime ≤ pollBaseline atSample) →
      (handle_get_screenshot_latest atSample obs).2 = .timeout) := by
  refine ⟨rfl, rfl, ?_, ?_⟩
  · intro d h
    exact pollForFresh_image h
  · intro h
    exact pollForFresh_timeout h

/-- C3 witness: a stale environment - the sentinel exists but its mtime
(5) never advances past the baseline (5) - yields a timeout. -/
theorem on_demand_capture_freshness_witness :
    (handle_get_screenshot_latest (some 5)
      (List.replicate 30 ⟨true, 5, "stale"⟩)).2 = CaptureResult.timeout := by
  refine (on_demand_capture_freshness (some 5)
    (List.replicate 30 ⟨true, 5, "stale"⟩)).2.2.2 ?_
  intro o ho hp
  have hmem : o ∈ List.replicate 30 (⟨true, 5, "stale"⟩ : PollObservation) :=
    List.take_subset _ _ ho
  have head : o = ⟨true, 5, "stale"⟩ := List.eq_of_mem_replicate hmem
  rw [head]
  exact le_refl (5 : ℚ)

/- ## Sequential screenshot retrieval
(screenshot.py `handle_get_screenshot`, lines 201-290)

The directory listing is the environment: a list of (name, size) entries.
The handler filters names matching `screenshot_*.jpg` excluding the
`screenshot_latest.jpg` sentinel, sorts them, and resolves the caller's
`which` selector. -/

def digitsToNatAux : List Char → Nat → Option Nat
  | [], acc => some acc
  | c :: rest, acc =>
    if c.isDigit then digitsToNatAux rest (acc * 10 + (c.toNat - 48)) else none

/-- Value of a non-empty, all-digit character list. -/
def digitsToNat : List Char → Option Nat
  | [] => none
  | l => digitsToNatAux l 0

/-- Python `int(s)` on simple decimal strings (optional sign then digits);
anything else raises ValueError, here `none`. -/
def pyIntParse (s : String) : Option Int :=
  match s.toList with
  | '-' :: rest => (digitsToNat rest).map (fun n => -(n : Int))
  | '+' :: rest => (digitsToNat rest).map (fun n => (n : Int))
  | l => (digitsToNat l).map (fun n => (n : Int))

def pad3 (n : Nat) : String :=
  if n < 10 then "00" ++ toString n
  else if n < 100 then "0" ++ toString n
  else toString n

def pad2 (n : Nat) : String :=
  if n < 10 then "0" ++ toString n else toString n

/-- Python `f"...{num:03d}..."`: width 3 including any minus sign. -/
def pyFormat03d (n : Int) : String :=
  if n < 0 then "-" ++ pad2 n.natAbs else pad3 n.natAbs

/-- Python `<` on strings: lexicographic by code point. -/
def pyStrLtChars : List Char → List Char → Bool
  | [], [] => false
  | [], _ :: _ => true
  | _ :: _, [] => false
  | a :: as, b :: bs =>
    if a.toNat < b.toNat then true
    else if b.toNat < a.toNat then false
    else pyStrLtChars as bs

/-- Python `<=` on strings. -/
def pyStrLe (a b : String) : Bool := !(pyStrLtChars b.toList a.toList)

/-- Insertion step of ascending string sort. -/
def insertAsc (a : String) : List String → List String
  | [] => [a]
  | b :: rest => if pyStrLe a b then a :: b :: rest else b :: insertAsc a rest

/-- Python `sorted` on strings (ascending lexicographic). -/
def pySorted : List String → List String
  | [] => []
  | a :: rest => insertAsc a (pySorted rest)

/-- One directory entry, with the size `os.path.getsize` reports. -/
structure ScreenshotFile where
  name : String
  size : Nat
  deriving DecidableEq, Repr

/-- Python `s.startswith(pre)` on strings. -/
def pyStartsWith (s pre : String) : Bool := beginsWith pre.toList s.toList

/-- Python `s.endswith(suf)` on strings. -/
def pyEndsWith (s suf : String) : Bool :=
  beginsWith suf.toList.reverse s.toList.reverse

/-- screenshot.py lines 208-211: `f.startswith("screenshot_") and
f.endswith(".jpg") and f != "screenshot_latest.jpg"`. -/
def isRecordedScreenshot (f : String) : Bool :=
  pyStartsWith f "screenshot_" && pyEndsWith f ".jpg" &&
    !(f == "screenshot_latest.jpg")

def lookupSize (files : List ScreenshotFile) (n : String) : Nat :=
  ((files.find? (fun p => p.name == n)).map ScreenshotFile.size).getD 0

/-- What one `get_simulator_screenshot` call returns. -/
inductive ScreenshotReply where
  | freshCapture
  | imageOf (filename : String)
  | manifest (entries : List (String × Nat))
  | err (msg : String)
  deriving DecidableEq, Repr

/-- screenshot.py `handle_get_screenshot` for the non-"latest" selectors
(lines 201-290): "last" resolves to the final sorted name, "all" returns a
names-and-sizes manifest rather than image bytes, and an integer selector
resolves `screenshot_{num:03d}.jpg` or reports the available range. -/
def handle_get_screenshot_selector (which : String) (dirPresent : Bool)
    (files : List ScreenshotFile) : ScreenshotReply :=
  if which == "latest" then .freshCapture
  else if !dirPresent then .err "Screenshot directory not found"
  else
    let screenshots := pySorted ((files.map ScreenshotFile.name).filter isRecordedScreenshot)
    if which == "last" then
      match screenshots.getLast? with
      | none => .err "No recorded screenshots found. Use start_screenshot_recording to begin capturing."
      | some f => .imageOf f
    else if which == "all" then
      match screenshots with
      | [] => .err "No recorded screenshots found. Use start_screenshot_recording to begin capturing."
      | _ => .manifest (screenshots.map (fun n => (n, lookupSize files n)))
    else
      match pyIntParse which with
      | none => .err ("Invalid which value: " ++ which ++ ". Use latest, last, all, or a number.")
      | some num =>
        let filename := "screenshot_" ++ pyFormat03d num ++ ".jpg"
        if screenshots.contains filename then .imageOf filename
        else
          match screenshots with
          | [] => .err "No recorded screenshots found. Use start_screenshot_recording to begin capturing."
          | _ => .err ("Screenshot " ++ toString num ++ " not found. Available: 1-" ++
              toString screenshots.length)

/-- A directory holding recordings 001-010 (listed unsorted) plus the
on-demand sentinel. -/
def c5Files : List ScreenshotFile :=
  [⟨"screenshot_003.jpg", 300⟩, ⟨"screenshot_001.jpg", 100⟩, ⟨"screenshot_010.jpg", 1000⟩,
   ⟨"screenshot_latest.jpg", 5000⟩, ⟨"screenshot_002.jpg", 200⟩, ⟨"screenshot_004.jpg", 400⟩,
   ⟨"screenshot_005.jpg", 500⟩, ⟨"screenshot_006.jpg", 600⟩, ⟨"screenshot_007.jpg", 700⟩,
   ⟨"screenshot_008.jpg", 800⟩, ⟨"screenshot_009.jpg", 900⟩]

/-- C5: with recordings 001-010 present (sentinel excluded from the
series), "last" resolves to 010, selector 5 to 005, selector 11 to a
not-found error citing range 1-10, and "all" to a manifest of names and
sizes rather than image bytes (screenshot.py lines 207-257). -/
theorem screenshot_selector_resolution :
    handle_get_screenshot_selector "last" true c5Files =
      .imageOf "screenshot_010.jpg" ∧
    handle_get_screenshot_selector "5" true c5Files =
      .imageOf "screenshot_005.jpg" ∧
    handle_get_screenshot_selector "11" true c5Files =
      .err "Screenshot 11 not found. Available: 1-10" ∧
    handle_get_screenshot_selector "all" true c5Files =
      .manifest [("screenshot_001.jpg", 100), ("screenshot_002.jpg", 200),
        ("screenshot_003.jpg", 300), ("screenshot_004.jpg", 400),
        ("screenshot_005.jpg", 500), ("screenshot_006.jpg", 600),
        ("screenshot_007.jpg", 700), ("screenshot_008.jpg", 800),
        ("screenshot_009.jpg", 900), ("screenshot_010.jpg", 1000)] := by
  refine ⟨?_, ?_, ?_, ?_⟩ <;> decide

/- ## Touch simulation (touch.py `handle_simulate_tap` lines 136-187 and
`handle_simulate_drag` lines 190-253)

The JSON numbers (percent bounds, display dimensions, drag duration) are
modelled as rationals; `int()` is truncation toward zero. The state is the
display-info file (absent = `none`) and the touch control file. -/

/-- Python `int(x)` on a number: truncation toward zero (stated computably
on `ℚ` through numerator and denominator). -/
def pyInt (q : ℚ) : ℤ :=
  if 0 ≤ q then ((q.num.toNat / q.den : ℕ) : ℤ) else -((q.num.natAbs / q.den : ℕ) : ℤ)

/-- The fields of `solar2d_display_{name}.json` the handlers consult. -/
structure DisplayInfo where
  contentWidth : ℚ
  contentHeight : ℚ
  deriving DecidableEq

/-- The display-info file (`none` when absent) and the touch control file. -/
structure TouchState where
  displayInfo : Option DisplayInfo
  touchControl : Option String
  deriving DecidableEq

/-- A tool call's textual outcome. -/
inductive ToolReply where
  | ok (msg : String)
  | err (msg : String)
  deriving DecidableEq, Repr

/-- touch.py `handle_simulate_tap` (lines 136-187): fail without
DisplayInfo, fail on zero (falsy) dimensions, else write
`tap,{x},{y}` with the scaled bounding-box center. -/
def handle_simulate_tap (st : TouchState) (left right top bottom : ℚ) :
    ToolReply × TouchState :=
  match st.displayInfo with
  | none => (.err "Display info not found. Make sure the simulator is running.", st)
  | some info =>
    if info.contentWidth = 0 ∨ info.contentHeight = 0 then
      (.err "Error: Invalid display info", st)
    else
      let x_percent := (left + right) / 2
      let y_percent := (top + bottom) / 2
      let x := pyInt (info.contentWidth * x_percent / 100)
      let y := pyInt (info.contentHeight * y_percent / 100)
      (.ok "Tap sent",
       { st with touchControl := some ("tap," ++ toString x ++ "," ++ toString y) })

/-- touch.py `handle_simulate_drag` (lines 190-253): same precondition,
payload `drag,{x1},{y1},{x2},{y2},{int(duration)}`. -/
def handle_simulate_drag (st : TouchState)
    (start_left start_right start_top start_bottom
     end_left end_right end_top end_bottom duration : ℚ) :
    ToolReply × TouchState :=
  match st.displayInfo with
  | none => (.err "Display info not found. Make sure the simulator is running.", st)
  | some info =>
    if info.contentWidth = 0 ∨ info.contentHeight = 0 then
      (.err "Error: Invalid display info", st)
    else
      let x1 := pyInt (info.contentWidth * ((start_left + start_right) / 2) / 100)
      let y1 := pyInt (info.contentHeight * ((start_top + start_bottom) / 2) / 100)
      let x2 := pyInt (info.contentWidth * ((end_left + end_right) / 2) / 100)
      let y2 := pyInt (info.contentHeight * ((end_top + end_bottom) / 2) / 100)
      (.ok "Drag sent",
       { st with touchControl := some ("drag," ++ toString x1 ++ "," ++ toString y1 ++
          "," ++ toString x2 ++ "," ++ toString y2 ++ "," ++ toString (pyInt duration)) })

/-- C7: without the DisplayInfo file both touch handlers fail and leave
the control file untouched; with it present (and nonzero dimensions, as
the falsy check demands) the payload written is the comma-delimited
`tap,x,y` or `drag,x1,y1,x2,y2,duration` whose coordinates are the
bounding-box centers scaled by the content dimensions and truncated by
`int()` (touch.py lines 136-187 and 190-253). -/
theorem touch_precondition_and_format (st : TouchState)
    (l r t b sl sr st2 sb el er et eb dur : ℚ) :
    (st.displayInfo = none →
      handle_simulate_tap st l r t b =
        (.err "Display info not found. Make sure the simulator is running.", st) ∧
      handle_simulate_drag st sl sr st2 sb el er et eb dur =
        (.err "Display info not found. Make sure the simulator is running.", st)) ∧
    (∀ info, st.displayInfo = some info →
      info.contentWidth ≠ 0 → info.contentHeight ≠ 0 →
      ((handle_simulate_tap st l r t b).2.touchControl =
          some ("tap," ++ toString (pyInt (info.contentWidth * ((l + r) / 2) / 100)) ++
            "," ++ toString (pyInt (info.contentHeight * ((t + b) / 2) / 100))) ∧
        (handle_simulate_tap st l r t b).2.displayInfo = st.displayInfo) ∧
      ((handle_simulate_drag st sl sr st2 sb el er et eb dur).2.touchControl =
          some ("drag," ++ toString (pyInt (info.contentWidth * ((sl + sr) / 2) / 100)) ++
            "," ++ toString (pyInt (info.contentHeight * ((st2 + sb) / 2) / 100)) ++
            "," ++ toString (pyInt (info.contentWidth * ((el + er) / 2) / 100)) ++
            "," ++ toString (pyInt (info.contentHeight * ((et + eb) / 2) / 100)) ++
            "," ++ toString (pyInt dur)) ∧
        (handle_simulate_drag st sl sr st2 sb el er et eb dur).2.displayInfo =
          st.displayInfo)) := by
  constructor
  · intro hnone
    constructor
    · simp [handle_simulate_tap, hnone]
    · simp [handle_simulate_drag, hnone]
  · intro info hsome hw hh
    have hcond : ¬ (info.contentWidth = 0 ∨ info.contentHeight = 0) := by
      intro hc
      rcases hc with hc | hc
      · exact hw hc
      · exact hh hc
    constructor
    · constructor
      · simp [handle_simulate_tap, hsome, hcond]
      · simp [handle_simulate_tap, hsome, hcond]
    · constructor
      · simp [handle_simulate_drag, hsome, hcond]
      · simp [handle_simulate_drag, hsome, hcond]

/-- C7 witness: a missing display-info file fails a tap and leaves the
pending control payload in place; a present 320x480 display yields the
tap payload for the 30-50 x 60-70 percent box. -/
theorem touch_precondition_and_format_witness :
    handle_simulate_tap ⟨none, some "tap,1,2"⟩ 30 50 60 70 =
      (.err "Display info not found. Make sure the simulator is running.",
        ⟨none, some "tap,1,2"⟩) ∧
    (handle_simulate_tap ⟨some ⟨320, 480⟩, none⟩ 30 50 60 70).2.touchControl =
      some ("tap," ++ toString (pyInt ((320 : ℚ) * ((30 + 50) / 2) / 100)) ++
        "," ++ toString (pyInt ((480 : ℚ) * ((60 + 70) / 2) / 100))) := by
  constructor
  · exact ((touch_precondition_and_format ⟨none, some "tap,1,2"⟩
      30 50 60 70 0 0 0 0 0 0 0 0 0).1 rfl).1
  · exact (((touch_precondition_and_format ⟨some ⟨320, 480⟩, none⟩
      30 50 60 70 0 0 0 0 0 0 0 0 0).2 ⟨320, 480⟩ rfl
      (by decide) (by decide)).1).1

/- ## Recording duration (screenshot.py `handle_start_recording` lines
108-130; Lua `checkControl` generated by run_project.py
`create_screenshot_module` lines 204-227) -/

/-- screenshot.py lines 120-125: `duration = min(int(duration), 300)`,
then the decimal string is written to the screenshot control file. -/
def handle_start_recording_payload (duration : ℚ) : String :=
  toString (min (pyInt duration) 300)

/-- Lua `tonumber` restricted to the decimal-integer payloads this
control channel carries (optional minus sign then digits). -/
def luaTonumber (s : String) : Option ℤ :=
  match s.toList with
  | '-' :: rest => (digitsToNat rest).map (fun n => -(n : ℤ))
  | l => (digitsToNat l).map (fun n => (n : ℤ))

/-- What the Lua screenshot module does with one consumed payload. -/
inductive ScreenshotCmd where
  | captureNow
  | startRecording (seconds : ℤ)
  | stopRecording
  | ignored
  deriving DecidableEq, Repr

/-- The Lua `checkControl` dispatch (run_project.py lines 204-227):
`"now"` captures on demand, a positive number starts/extends recording,
the literal `0` stops it, anything else is ignored. -/
def luaCheckControl (content : String) : ScreenshotCmd :=
  if content == "now" then .captureNow
  else
    match luaTonumber content with
    | none => .ignored
    | some duration =>
      if 0 < duration then .startRecording duration
      else if duration = 0 then .stopRecording
      else .ignored

theorem pyInt_eq_floor {q : ℚ} (h : 0 ≤ q) : pyInt q = ⌊q⌋ := by
  unfold pyInt
  rw [if_pos h, Rat.floor_def]
  have hn : 0 ≤ q.num := Rat.num_nonneg.mpr h
  rw [← Int.toNat_of_nonneg hn]
  exact Int.natCast_div _ _

theorem pyInt_eq_ceil {q : ℚ} (h : ¬ 0 ≤ q) : pyInt q = ⌈q⌉ := by
  have hq0 : 0 ≤ -q := neg_nonneg.mpr (le_of_lt (lt_of_not_ge h))
  have hfl : pyInt (-q) = ⌊-q⌋ := pyInt_eq_floor hq0
  have hrel : pyInt q = -(pyInt (-q)) := by
    unfold pyInt
    rw [if_neg h, if_pos hq0, Rat.neg_num, Rat.neg_den]
    have hn : q.num ≤ 0 := Rat.num_nonpos.mpr (le_of_lt (lt_of_not_ge h))
    have htn : (-q.num).toNat = q.num.natAbs := by omega
    rw [htn]
  rw [hrel, hfl, Int.floor_neg]
  simp

/-- C10: the payload written by `start_screenshot_recording` is the
decimal string of `min(int(d), 300)` - durations above 300 are capped,
`int()` truncates toward zero - and a duration of 0 writes "0", which the
Lua consumer interprets as the stop-recording command, not as starting a
recording (screenshot.py lines 108-130, run_project.py lines 204-227). -/
theorem recording_duration_normalization (d : ℚ) :
    handle_start_recording_payload d = toString (min (pyInt d) 300) ∧
    (300 < pyInt d → handle_start_recording_payload d = "300") ∧
    (0 ≤ d → (pyInt d : ℚ) ≤ d ∧ d - 1 < (pyInt d : ℚ)) ∧
    (¬ 0 ≤ d → d ≤ (pyInt d : ℚ) ∧ (pyInt d : ℚ) < d + 1) ∧
    (d = 0 → handle_start_recording_payload d = "0" ∧
      luaCheckControl (handle_start_recording_payload d) = .stopRecording ∧
      ∀ n, luaCheckControl (handle_start_recording_payload d) ≠ .startRecording n) := by
  refine ⟨rfl, ?_, ?_, ?_, ?_⟩
  · intro h
    unfold handle_start_recording_payload
    rw [min_eq_right (le_of_lt h)]
    decide
  · intro h
    rw [pyInt_eq_floor h]
    exact ⟨Int.floor_le d, Int.sub_one_lt_floor d⟩
  · intro h
    rw [pyInt_eq_ceil h]
    exact ⟨Int.le_ceil d, Int.ceil_lt_add_one d⟩
  · intro h
    subst h
    refine ⟨by decide, by decide, ?_⟩
    intro n
    have hz : luaCheckControl (handle_start_recording_payload 0) =
        ScreenshotCmd.stopRecording := by decide
    rw [hz]
    intro hcontra
    exact ScreenshotCmd.noConfusion hcontra

/-- C10 witness: duration 301 is capped to the payload "300"; duration 0
writes "0" and the consumer reads it as stop, never as a start. -/
theorem recording_duration_normalization_witness :
    handle_start_recording_payload 301 = "300" ∧
    handle_start_recording_payload 0 = "0" ∧
    luaCheckControl (handle_start_recording_payload 0) =
      ScreenshotCmd.stopRecording := by
  refine ⟨(recording_duration_normalization 301).2.1 (by decide), ?_, ?_⟩
  · exact ((recording_duration_normalization 0).2.2.2.2 rfl).1
  · exact ((recording_duration_normalization 0).2.2.2.2 rfl).2.1

/- ## Social draft lifecycle (social/preview.py `handle` lines 288-399,
social/publish.py `handle` lines 55-230)

The draft file `solar2d_social_draft.json` is a single global slot:
`_load_draft` returns `none` when it is missing or unparseable. The Late
REST service's responses and the media file's readability are the
environment; the requests actually issued are traced in order. -/

/-- Python `s.lower()` on strings. -/
def pyLowerStr (s : String) : String := (pyLower s.toList).asString

/-- Python `s.strip()` on strings. -/
def pyStripStr (s : String) : String := (pyStrip s.toList).asString

/-- The draft record preview_social_post saves (preview.py lines 356-365). -/
structure SocialDraft where
  content : String
  platforms : List String
  media_path : Option String
  title : Option String
  hashtags : Option (List String)
  subreddit : Option String
  deriving DecidableEq

/-- The single-slot draft-file state. -/
structure SocialState where
  draft : Option SocialDraft
  deriving DecidableEq

/-- One Late account (provider compared lowercased, publish.py line 124). -/
structure LateAccount where
  provider : String
  id : String
  deriving DecidableEq

/-- Outcome of one HTTP call against the Late API. -/
inductive HttpOutcome (α : Type) where
  | ok (value : α)
  | httpError (status : Nat) (body : String)
  | connError (msg : String)

/-- Responses the Late service would give to the successive requests of
one publish call, plus whether the draft's media file is readable. -/
structure LateEnv where
  accountsResp : HttpOutcome (List LateAccount)
  uploadResp : HttpOutcome String
  postResp : HttpOutcome String
  mediaFileReadable : Bool

/-- The outbound requests a publish call issues, in order. -/
inductive LateRequest where
  | getAccounts
  | uploadMedia
  | createPost
  deriving DecidableEq, Repr

/-- The final create-post step of publish.py (lines 187-230): on failure
the handler returns before `os.remove(DRAFT_FILE)`, on success the draft
file is removed. -/
def publishCreate (env : LateEnv) (schedule_for : Option String)
    (st : SocialState) (reqs : List LateRequest) :
    ToolReply × SocialState × List LateRequest :=
  match env.postResp with
  | .httpError status body =>
    (.err ("Error creating post: " ++ toString status ++ " - " ++ body), st,
     reqs ++ [.createPost])
  | .connError msg => (.err ("Error creating post: " ++ msg), st, reqs ++ [.createPost])
  | .ok _post_id =>
    ((match schedule_for with
      | some when2 => ToolReply.ok ("Post scheduled for " ++ when2)
      | none => ToolReply.ok "Post published!"),
     ⟨none⟩, reqs ++ [.createPost])

/-- publish.py `handle` (lines 55-230): import check, API-key check,
draft load, account fetch and platform matching, optional media upload,
post creation, then draft deletion. -/
def handle_publish (httpxAvailable : Bool) (api_key : Option String)
    (env : LateEnv) (schedule_for : Option String) (st : SocialState) :
    ToolReply × SocialState × List LateRequest :=
  if !httpxAvailable then (.err "httpx is not installed", st, [])
  else
    match api_key with
    | none =>
      (.err "No Late API key configured. Use configure_social_media to set your key.",
       st, [])
    | some _ =>
      match st.draft with
      | none =>
        (.err "No draft found. Use preview_social_post first to create and review a preview.",
         st, [])
      | some draft =>
        match env.accountsResp with
        | .httpError status body =>
          (.err ("Error fetching Late accounts: " ++ toString status ++ " - " ++ body),
           st, [.getAccounts])
        | .connError msg =>
          (.err ("Error connecting to Late API: " ++ msg), st, [.getAccounts])
        | .ok account_list =>
          let missing := draft.platforms.filter
            (fun p => !(account_list.any (fun a => pyLowerStr a.provider == p)))
          if missing ≠ [] then
            (.err "No Late accounts found for requested platforms", st, [.getAccounts])
          else
            match draft.media_path with
            | some _mp =>
              if env.mediaFileReadable then
                match env.uploadResp with
                | .httpError status body =>
                  (.err ("Error uploading media: " ++ toString status ++ " - " ++ body),
                   st, [.getAccounts, .uploadMedia])
                | .connError msg =>
                  (.err ("Error uploading media: " ++ msg), st,
                   [.getAccounts, .uploadMedia])
                | .ok _media_id =>
                  publishCreate env schedule_for st [.getAccounts, .uploadMedia]
              else publishCreate env schedule_for st [.getAccounts]
            | none => publishCreate env schedule_for st [.getAccounts]

/-- preview.py `handle` (lines 288-399), reduced to its validation and
draft-save effect; `resolveMedia` stands for `_resolve_media_path` over
the filesystem. -/
def handle_preview (content : String) (platforms : List String)
    (media : Option String) (resolveMedia : String → Option String)
    (title : Option String) (hashtags : Option (List String))
    (subreddit : Option String) (st : SocialState) : ToolReply × SocialState :=
  if content == "" then (.err "Error: content is required", st)
  else if platforms.isEmpty then
    (.err "Error: platforms must be a non-empty list", st)
  else
    let plats := platforms.map (fun p => pyStripStr (pyLowerStr p))
    match media with
    | some m =>
      if m == "" then
        (.ok "Preview opened in browser!",
         ⟨some ⟨content, plats, none, title, hashtags, subreddit⟩⟩)
      else
        match resolveMedia m with
        | none => (.err "Error: Could not resolve media", st)
        | some mp =>
          (.ok "Preview opened in browser!",
           ⟨some ⟨content, plats, some mp, title, hashtags, subreddit⟩⟩)
    | none =>
      (.ok "Preview opened in browser!",
       ⟨some ⟨content, plats, none, title, hashtags, subreddit⟩⟩)

/-- C6: with httpx available and an API key configured, publishing with no
saved draft fails with the no-draft error and issues no external request;
a successful preview stores exactly one draft; with a stored draft whose
platforms all match Late accounts, one immediate publish succeeds and
clears the draft - so a second publish fails with the no-draft error -
and a create-post failure from the service leaves the draft intact for
retry (publish.py lines 55-230, preview.py lines 355-365). -/
theorem draft_single_slot (key : String) (env : LateEnv)
    (sched : Option String) (st : SocialState) :
    (st.draft = none →
      handle_publish true (some key) env sched st =
        (.err "No draft found. Use preview_social_post first to create and review a preview.",
         st, [])) ∧
    (∀ content platforms resolver title hashtags subreddit,
      ¬ content = "" → platforms ≠ [] →
      (handle_preview content platforms none resolver title hashtags subreddit st).2.draft =
        some ⟨content, platforms.map (fun p => pyStripStr (pyLowerStr p)), none,
          title, hashtags, subreddit⟩) ∧
    (∀ d accounts pid,
      st.draft = some d → d.media_path = none →
      env.accountsResp = .ok accounts →
      d.platforms.filter
        (fun p => !(accounts.any (fun a => pyLowerStr a.provider == p))) = [] →
      env.postResp = .ok pid →
      handle_publish true (some key) env none st =
        (.ok "Post published!", ⟨none⟩, [.getAccounts, .createPost]) ∧
      handle_publish true (some key) env none ⟨none⟩ =
        (.err "No draft found. Use preview_social_post first to create and review a preview.",
         (⟨none⟩ : SocialState), [])) ∧
    (∀ d accounts status body,
      st.draft = some d → d.media_path = none →
      env.accountsResp = .ok accounts →
      d.platforms.filter
        (fun p => !(accounts.any (fun a => pyLowerStr a.provider == p))) = [] →
      env.postResp = .httpError status body →
      (handle_publish true (some key) env sched st).2.1 = st) := by
  refine ⟨?_, ?_, ?_, ?_⟩
  · intro hnone
    simp [handle_publish, hnone]
  · intro content platforms resolver title hashtags subreddit hc hp
    have hc' : (content == "") = false := by
      cases hcc : content == ""
      · rfl
      · exact absurd (eq_of_beq hcc) hc
    have hp' : platforms.isEmpty = false := by
      cases platforms
      · exact absurd rfl hp
      · rfl
    simp [handle_preview, hc', hp']
  · intro d accounts pid hd hm ha hmiss hp
    constructor
    · simp [handle_publish, hd, ha, hmiss, hm, publishCreate, hp]
    · simp [handle_publish]
  · intro d accounts status body hd hm ha hmiss hp
    simp [handle_publish, hd, ha, hmiss, hm, publishCreate, hp]

/-- C6 witness: a concrete all-ok Late environment with one twitter
account; publish on an empty slot fails with no requests, a preview
stores the draft, the first publish succeeds and a second fails. -/
theorem draft_single_slot_witness :
    handle_publish true (some "k")
      ⟨.ok [⟨"twitter", "a1"⟩], .ok "m1", .ok "p1", false⟩ none ⟨none⟩ =
      (.err "No draft found. Use preview_social_post first to create and review a preview.",
       (⟨none⟩ : SocialState), []) ∧
    (handle_preview "hello" ["Twitter"] none (fun _ => none) none none none
      ⟨none⟩).2.draft = some ⟨"hello", ["twitter"], none, none, none, none⟩ ∧
    handle_publish true (some "k")
      ⟨.ok [⟨"twitter", "a1"⟩], .ok "m1", .ok "p1", false⟩ none
      ⟨some ⟨"hello", ["twitter"], none, none, none, none⟩⟩ =
      (.ok "Post published!", (⟨none⟩ : SocialState),
       [.getAccounts, .createPost]) := by
  refine ⟨?_, ?_, ?_⟩
  · exact (draft_single_slot "k" ⟨.ok [⟨"twitter", "a1"⟩], .ok "m1", .ok "p1", false⟩
      none ⟨none⟩).1 rfl
  · have h := (draft_single_slot "k"
      ⟨.ok [⟨"twitter", "a1"⟩], .ok "m1", .ok "p1", false⟩ none ⟨none⟩).2.1
      "hello" ["Twitter"] (fun _ => none) none none none (by decide) (by decide)
    rw [h]
    decide
  · exact ((draft_single_slot "k" ⟨.ok [⟨"twitter", "a1"⟩], .ok "m1", .ok "p1", false⟩
      none ⟨some ⟨"hello", ["twitter"], none, none, none, none⟩⟩).2.2.1
      ⟨"hello", ["twitter"], none, none, none, none⟩ [⟨"twitter", "a1"⟩] "p1"
      rfl rfl rfl (by decide) rfl).1
